import Mathlib

/-!
Shallow embedding of `pdb_clone/_bdbmodule.c`, the C implementation of the
`BdbTracer` class of the bdb module: the per-event decision engine of a
source-level debugger (stop decision, breakpoint resolution with a
last-resolved cache, and the trace-event dispatcher).

Modelling conventions:
* Python object identity of frames and code objects is modelled by an
  `ident : Nat` field; pointer comparison in C becomes structural equality.
* `Py_None`-or-object slots become `Option` values (`none` = `Py_None`).
  `NULL` pointers for the internal cache slots also become `none`; the two
  are distinguished per field following how the C code uses each slot.
* Dictionaries become association lists (`List (key × value)`), with
  `List.lookup`; a dict used only for key-membership becomes a key list.
* The overridable Python methods (`is_skipped_module`, `user_line`,
  `user_call`, `user_return`, `user_exception`, `bkpt_user_line`,
  `get_traceobj`, `stop_tracing`) live outside this translation unit; they
  are passed in as a `Caps` record.  Each may mutate the Python-visible
  attributes (a `TracerAttrs`) and may raise (`Option Unit` result, `none`
  = raised), mirroring `PyObject_CallMethod` failure.
* The C `tracer` trace function mutates `frame->f_trace`,
  `frame->f_back->f_trace` and the interpreter-global trace hook; these
  mutable slots are passed in and returned explicitly in `TraceOut`.
* A `none` result of `bkpt_at_line`/`tracer` models dereferencing a NULL
  internal cache pointer (`self->module_bps` / `self->code_bps`), which in
  C would be undefined behaviour; the cache invariant proves it unreachable.
-/

namespace Bdb

/-- An object that can sit in a frame's `f_trace` slot or be returned by
`get_traceobj`: either the `BdbTracer` instance itself (`self`, also known
as `trace_dispatch`) or some other Python object. -/
inductive TraceObj where
  | tracer : TraceObj
  | obj : Nat → TraceObj
deriving DecidableEq, Repr

/-- A Python code object as used by the C module: identity, `co_filename`
and `co_firstlineno`. -/
structure Code where
  ident : Nat
  co_filename : String
  co_firstlineno : Nat
deriving DecidableEq, Repr

/-- A frame snapshot as read by the C module: identity, its code object and
the current line number.  The mutable `f_trace` slot and the `f_back` link
are passed to `tracer` separately, since the C code mutates them. -/
structure Frame where
  ident : Nat
  f_code : Code
  f_lineno : Nat
deriving DecidableEq, Repr

/-- The four trace event kinds dispatched by `tracer`
(`PyTrace_CALL/LINE/RETURN/EXCEPTION`). -/
inductive Event where
  | call | line | ret | exc
deriving DecidableEq, Repr

/-- A `code_bps` dictionary, viewed through the only operation the C module
applies to it: `PyDict_Contains` with a cached line-number key. -/
abbrev CodeBps := List Int

/-- A `module_bps` dictionary mapping a cached line-number object (for a
function's first line) to its `code_bps` dictionary. -/
abbrev ModuleBps := List (Int × CodeBps)

/-- The `breakpoints` dictionary mapping a (possibly case-folded) filename
to a `module_bps` dictionary. -/
abbrev Breakpoints := List (String × ModuleBps)

/-- The `arg` parameter of a trace event (`none` models both `NULL` and
`Py_None`, which the C code conflates at the top of `tracer`). -/
abbrev Arg := Option Nat

/-- The Python-visible, writable attributes of a `BdbTracer`
(`BdbTracer_members`).  Overridden methods may mutate any of these. -/
structure TracerAttrs where
  breakpoints : Breakpoints
  botframe : Option Frame
  quitting : Bool
  topframe : Option Frame
  topframe_locals : Option Nat
  stopframe : Option Frame
  stop_lineno : Int
  skip_modules : List String
  skip_calls : List Code
  linenumbers : List (Option Int)
deriving DecidableEq, Repr

/-- The full `BdbTracer` C struct: the Python-visible attributes plus the
internal fields (`ignore_first_call_event`, `lcfilename_cache`, and the
last-resolved breakpoint cache `module_bps`/`code_bps`/`f_code`). -/
structure BdbTracer where
  attrs : TracerAttrs
  ignore_first_call_event : Bool
  lcfilename_cache : Option (List (String × String))
  module_bps : Option ModuleBps
  code_bps : Option CodeBps
  f_code : Option Code
deriving DecidableEq, Repr

/-- The overridable methods the C module calls on `self` but does not
define itself (they are overridden by the Python `Bdb` class).  Handlers
receive and return the Python-visible attributes; `none` in the second
component models the call raising an exception.  `get_traceobj` returns an
object (`some none` = returned `Py_None`). -/
structure Caps where
  is_skipped_module : Frame → Option Bool
  user_line : TracerAttrs → Frame → TracerAttrs × Option Unit
  bkpt_user_line : TracerAttrs → Frame → ModuleBps → TracerAttrs × Option Unit
  user_call : TracerAttrs → Frame → Arg → TracerAttrs × Option Unit
  user_return : TracerAttrs → Frame → Arg → TracerAttrs × Option Unit
  user_exception : TracerAttrs → Frame → Arg → TracerAttrs × Option Unit
  get_traceobj : TracerAttrs → TracerAttrs × Option (Option TraceObj)
  stop_tracing : TracerAttrs → Frame → TracerAttrs × Option Unit

/-- `stop_here` (C lines 163-192).  Result `none` models the C error
return `-1` (the `is_skipped_module` call raised); `some b` is the boolean
decision.  The skip-module check runs only when `skip_modules` is
non-empty; `stop_lineno = -1` makes the frame-matched branch answer
false. -/
def stop_here (skipMod : Frame → Option Bool) (a : TracerAttrs) (fr : Frame) :
    Option Bool :=
  let rest : Option Bool :=
    if a.stopframe = some fr ∨ a.stopframe = none then
      if a.stop_lineno = -1 then some false
      else some (decide ((fr.f_lineno : Int) ≥ a.stop_lineno))
    else some false
  if a.skip_modules ≠ [] then
    match skipMod fr with
    | none => none
    | some true => some false
    | some false => rest
  else rest

/-- The case-folded filename used by `bkpt_in_code` (C lines 204-218):
the raw `co_filename` when folding is disabled, otherwise the cached
folded value or a freshly computed `lower()`. -/
def fold_filename (s : BdbTracer) (f : String) : String :=
  match s.lcfilename_cache with
  | none => f
  | some cache =>
    match List.lookup f cache with
    | some lc => lc
    | none => f.toLower

/-- The `lcfilename_cache` update performed by `bkpt_in_code` on a cache
miss (C lines 206-214): store `filename.lower()` keyed by the raw name. -/
def lcUpd (s : BdbTracer) (f : String) : BdbTracer :=
  match s.lcfilename_cache with
  | none => s
  | some cache =>
    match List.lookup f cache with
    | some _ => s
    | none => { s with lcfilename_cache := some ((f, f.toLower) :: cache) }

/-- The pure two-level lookup chain of `bkpt_in_code`, without its state
updates: folded filename in `breakpoints`, then the cached line-number
object for `co_firstlineno` in `linenumbers`, then that key in
`module_bps`. -/
def lookup_code_bps (s : BdbTracer) (c : Code) : Option (ModuleBps × CodeBps) :=
  match List.lookup (fold_filename s c.co_filename) s.attrs.breakpoints with
  | none => none
  | some m =>
    match s.attrs.linenumbers[c.co_firstlineno]? with
    | some (some key) =>
      match List.lookup key m with
      | none => none
      | some cb => some (m, cb)
    | _ => none

/-- `bkpt_in_code` (C lines 194-253).  It reads the frame only through
`frame->f_code`, so it takes the code object directly.  On a successful
per-code lookup it updates the last-resolved cache (all three fields at
once) and returns the `module_bps`; otherwise it returns `Py_None`
(`none`) and leaves the cache untouched.  The `lcfilename_cache` may be
extended in either case. -/
def bkpt_in_code (s0 : BdbTracer) (co : Code) : Option ModuleBps × BdbTracer :=
  let filename := fold_filename s0 co.co_filename
  let s := lcUpd s0 co.co_filename
  match List.lookup filename s.attrs.breakpoints with
  | none => (none, s)
  | some module_bps =>
    match s.attrs.linenumbers[co.co_firstlineno]? with
    | some (some key) =>
      match List.lookup key module_bps with
      | none => (none, s)
      | some code_bps =>
        (some module_bps,
         { s with module_bps := some module_bps, code_bps := some code_bps,
                  f_code := some co })
    | _ => (none, s)

/-- Result of one `bkpt_at_line` call: the returned breakpoint set
(`none` = `Py_None`), the updated tracer state, and whether the
breakpoints index was queried (i.e. `bkpt_in_code` was called). -/
structure BkOut where
  res : Option ModuleBps
  st : BdbTracer
  queried : Bool
deriving DecidableEq, Repr

/-- The common tail of `bkpt_at_line` (C lines 275-291): look up the
cached line-number object for the frame's current line, test it against
`self->code_bps`, and return `module_bps` on a hit.  `none` models
`PyDict_Contains` being applied to a NULL `self->code_bps`. -/
def bkpt_at_line_tail (s1 : BdbTracer) (m : ModuleBps) (q : Bool) (fr : Frame) :
    Option BkOut :=
  match s1.attrs.linenumbers[fr.f_lineno]? with
  | some (some key) =>
    match s1.code_bps with
    | none => none
    | some cb => if key ∈ cb then some ⟨some m, s1, q⟩ else some ⟨none, s1, q⟩
  | _ => some ⟨none, s1, q⟩

/-- `bkpt_at_line` (C lines 255-292).  When the frame's code object equals
the cached `f_code`, the cached `module_bps`/`code_bps` are reused without
calling `bkpt_in_code`; otherwise `bkpt_in_code` runs first.  The outer
`none` models the C code dereferencing a NULL cached pointer
(`self->module_bps` at line 264 or `self->code_bps` at line 278). -/
def bkpt_at_line (s : BdbTracer) (fr : Frame) : Option BkOut :=
  if s.f_code = some fr.f_code then
    match s.module_bps with
    | none => none
    | some m => bkpt_at_line_tail s m false fr
  else
    let p := bkpt_in_code s fr.f_code
    match p.1 with
    | none => some ⟨none, p.2, true⟩
    | some m => bkpt_at_line_tail p.2 m true fr

/-- The uncached resolution path of `bkpt_at_line`: the very same code
with the `frame->f_code == self->f_code` fast path removed, so that
`bkpt_in_code` always runs (C lines 267-273 followed by 275-291). -/
def bkpt_at_line_uncached (s : BdbTracer) (fr : Frame) : Option BkOut :=
  let p := bkpt_in_code s fr.f_code
  match p.1 with
  | none => some ⟨none, p.2, true⟩
  | some m => bkpt_at_line_tail p.2 m true fr

/-- `user_method` (C lines 294-339): set `botframe` on first use, install
`topframe`/`topframe_locals` scratch values, run the handler, clear the
scratch values, then ask `get_traceobj` for the object to install.  A
`none` second component means some step raised; the attribute mutations
made before the failure are kept, as in C. -/
def user_method (caps : Caps) (handler : TracerAttrs → TracerAttrs × Option Unit)
    (s : BdbTracer) (fr : Frame) : BdbTracer × Option (Option TraceObj) :=
  let a0 := s.attrs
  let a1 := if a0.botframe = none then { a0 with botframe := some fr } else a0
  let a2 := { a1 with topframe := some fr, topframe_locals := none }
  match handler a2 with
  | (a3, none) => ({ s with attrs := a3 }, none)
  | (a3, some _) =>
    let a4 := { a3 with topframe := none, topframe_locals := none }
    match caps.get_traceobj a4 with
    | (a5, none) => ({ s with attrs := a5 }, none)
    | (a5, some tobj) => ({ s with attrs := a5 }, some tobj)

/-- Everything one `tracer` call produces: the C return code (`ok` =
returned 0), the new tracer state, the frame's new `f_trace` slot, the
caller frame's `f_trace` slot (`none` when `f_back == NULL`), the dispatch
result object at the `fin` label (`none` when the call never reached
`fin`, `some none` = result was `Py_None`), whether the global trace hook
is still installed, and whether `PyTraceBack_Here` attached a diagnostic
to the frame. -/
structure TraceOut where
  ok : Bool
  st : BdbTracer
  frameTrace : Option TraceObj
  backTrace : Option (Option TraceObj)
  result : Option (Option TraceObj)
  globalTrace : Bool
  tbHere : Bool
deriving DecidableEq, Repr

/-- The early return at C line 352: a LINE/RETURN/EXCEPTION event on a
frame with no local trace hook returns 0 at once, touching nothing. -/
def earlyOut (s : BdbTracer) (fTrace : Option TraceObj)
    (back : Option (Option TraceObj)) : TraceOut :=
  { ok := true, st := s, frameTrace := fTrace, backTrace := back,
    result := none, globalTrace := true, tbHere := false }

/-- The `fail` label (C lines 493-498): attach a traceback diagnostic to
the frame, uninstall the global trace hook, clear the frame's local hook,
return -1. -/
def failOut (s : BdbTracer) (back : Option (Option TraceObj)) : TraceOut :=
  { ok := false, st := s, frameTrace := none, backTrace := back,
    result := none, globalTrace := false, tbHere := true }

/-- The hook update at the `fin` label (C lines 483-490): a non-`Py_None`
result replaces the frame's `f_trace`; a `Py_None` result leaves the slot
untouched. -/
def apply_result (fTrace : Option TraceObj) (result : Option TraceObj) :
    Option TraceObj :=
  match result with
  | none => fTrace
  | some r => some r

/-- The `fin` label (C lines 480-491): when the result object is not
`Py_None`, it replaces the frame's `f_trace`; a `Py_None` result leaves
the slot untouched. -/
def finOut (s : BdbTracer) (fTrace : Option TraceObj)
    (back : Option (Option TraceObj)) (result : Option TraceObj) : TraceOut :=
  { ok := true, st := s,
    frameTrace := apply_result fTrace result,
    backTrace := back, result := some result, globalTrace := true,
    tbHere := false }

/-- The RETURN-event hook propagation to the caller frame (C lines
434-440): install `self` as the caller's hook only when the caller exists
and has no hook yet; an existing hook is never overridden. -/
def install_back (b : Option (Option TraceObj)) : Option (Option TraceObj) :=
  match b with
  | some none => some (some TraceObj.tracer)
  | b => b

/-- The tail of the RETURN branch (C lines 454-463): when the frame is
`botframe`, call `stop_tracing` and finish with result `Py_None`;
otherwise fall through to the default result `self`. -/
def ret_tail (caps : Caps) (s : BdbTracer) (fr : Frame)
    (fTrace : Option TraceObj) (back : Option (Option TraceObj)) : TraceOut :=
  if s.attrs.botframe = some fr then
    match caps.stop_tracing s.attrs fr with
    | (a, none) => failOut { s with attrs := a } back
    | (a, some _) => finOut { s with attrs := a } fTrace back none
  else
    finOut s fTrace back (some TraceObj.tracer)

/-- `tracer` (C lines 341-499), the trace function installed by
`PyEval_SetTrace`.  `fTrace` is the frame's `f_trace` slot on entry;
`back` is the caller frame's `f_trace` slot (`none` = `f_back` is NULL).
The outer `none` models a NULL dereference of the breakpoint cache inside
`bkpt_at_line` (unreachable under the cache invariant). -/
def tracer (caps : Caps) (s : BdbTracer) (fr : Frame) (fTrace : Option TraceObj)
    (back : Option (Option TraceObj)) (ev : Event) (arg : Arg) :
    Option TraceOut :=
  if ev ≠ Event.call ∧ fTrace = none then
    some (earlyOut s fTrace back)
  else
    match ev with
    | Event.line =>
      match stop_here caps.is_skipped_module s.attrs fr with
      | none => some (failOut s back)
      | some true =>
        match user_method caps (fun a => caps.user_line a fr) s fr with
        | (s1, none) => some (failOut s1 back)
        | (s1, some tobj) => some (finOut s1 fTrace back tobj)
      | some false =>
        match bkpt_at_line s fr with
        | none => none
        | some bk =>
          match bk.res with
          | none => some (finOut bk.st fTrace back (some TraceObj.tracer))
          | some m =>
            match user_method caps (fun a => caps.bkpt_user_line a fr m) bk.st fr with
            | (s1, none) => some (failOut s1 back)
            | (s1, some tobj) => some (finOut s1 fTrace back tobj)
    | Event.call =>
      if s.ignore_first_call_event then
        some (finOut { s with ignore_first_call_event := false } fTrace back
              (some TraceObj.tracer))
      else if fr.f_code ∈ s.attrs.skip_calls then
        some (finOut s fTrace back none)
      else
        match stop_here caps.is_skipped_module s.attrs fr with
        | none => some (failOut s back)
        | some rc =>
          let p := bkpt_in_code s fr.f_code
          if ¬ rc ∧ p.1 = none then
            some (finOut p.2 fTrace back none)
          else if rc then
            match user_method caps (fun a => caps.user_call a fr arg) p.2 fr with
            | (s1, none) => some (failOut s1 back)
            | (s1, some tobj) => some (finOut s1 fTrace back tobj)
          else
            some (finOut p.2 fTrace back (some TraceObj.tracer))
    | Event.ret =>
      match stop_here caps.is_skipped_module s.attrs fr with
      | none => some (failOut s back)
      | some rc =>
        if rc ∨ s.attrs.stopframe = some fr then
          match user_method caps (fun a => caps.user_return a fr arg) s fr with
          | (s1, none) => some (failOut s1 back)
          | (s1, some none) => some (finOut s1 fTrace back none)
          | (s1, some (some _)) =>
            let q :=
              if s1.attrs.botframe ≠ some fr ∧
                 ((s1.attrs.stopframe = none ∧ s1.attrs.stop_lineno = 0) ∨
                  s1.attrs.stopframe = some fr) then
                ({ s1 with attrs :=
                    { s1.attrs with stopframe := none, stop_lineno := 0 } },
                 install_back back)
              else (s1, back)
            some (ret_tail caps q.1 fr fTrace q.2)
        else
          some (ret_tail caps s fr fTrace back)
    | Event.exc =>
      match stop_here caps.is_skipped_module s.attrs fr with
      | none => some (failOut s back)
      | some true =>
        match user_method caps (fun a => caps.user_exception a fr arg) s fr with
        | (s1, none) => some (failOut s1 back)
        | (s1, some tobj) => some (finOut s1 fTrace back tobj)
      | some false => some (finOut s fTrace back (some TraceObj.tracer))

/-- `BdbTracer_reset` (C lines 501-548).  `ignore = none` models an
omitted `ignore_first_call_event` argument (the C parses it into a NULL
slot); `botframe = none` models an omitted `botframe` argument, which the
C replaces by `Py_None`.  The flag assignment transcribes
`1 ? ignore != Py_False : 0`, which evaluates to `ignore != Py_False`. -/
def reset (s : BdbTracer) (ignore : Option Bool) (botframe : Option (Option Frame)) :
    BdbTracer :=
  { s with
    ignore_first_call_event := match ignore with | some false => false | _ => true,
    attrs := { s.attrs with
      botframe := match botframe with | none => none | some b => b,
      quitting := false,
      topframe := none,
      topframe_locals := none,
      stopframe := none,
      stop_lineno := 0 } }

/-- `BdbTracer_init` (C lines 62-140): empty `breakpoints` and
`linenumbers`, the filename-folding cache enabled iff `to_lowercase`,
NULL breakpoint cache, followed by the `reset` call with no arguments. -/
def init (to_lowercase : Bool) (skip_mods : List String) (skip_cs : List Code) :
    BdbTracer :=
  reset
    { attrs := { breakpoints := [], botframe := none, quitting := false,
                 topframe := none, topframe_locals := none, stopframe := none,
                 stop_lineno := 0, skip_modules := skip_mods,
                 skip_calls := skip_cs, linenumbers := [] },
      ignore_first_call_event := false,
      lcfilename_cache := if to_lowercase then some [] else none,
      module_bps := none, code_bps := none, f_code := none }
    none none

/-- Concrete code object used in witnesses: file `a.py`, first line 1. -/
def c0 : Code := ⟨0, "a.py", 1⟩

/-- A generic concrete frame at line 1 of `c0`. -/
def fr0 : Frame := ⟨0, c0, 1⟩

/-- A concrete frame at line 10 of `c0` (a breakpointed line). -/
def frF : Frame := ⟨1, c0, 10⟩

/-- A concrete frame at line 5 of `c0`, distinct from `frF`. -/
def frG : Frame := ⟨2, c0, 5⟩

/-- A second frame identity used as a bottom frame distinct from `fr0`. -/
def frB : Frame := ⟨3, c0, 2⟩

/-- Attributes of a freshly constructed tracer with empty configuration. -/
def aEmpty : TracerAttrs :=
  { breakpoints := []
    botframe := none
    quitting := false
    topframe := none
    topframe_locals := none
    stopframe := none
    stop_lineno := 0
    skip_modules := []
    skip_calls := []
    linenumbers := [] }

/-- A tracer state with empty configuration and empty caches. -/
def s0 : BdbTracer :=
  { attrs := aEmpty
    ignore_first_call_event := false
    lcfilename_cache := none
    module_bps := none
    code_bps := none
    f_code := none }

/-- A `code_bps` key set holding line 10. -/
def cb0 : CodeBps := [10]

/-- A `module_bps` mapping the first-line key 1 of `c0` to `cb0`. -/
def m0 : ModuleBps := [(1, cb0)]

/-- Cached line-number objects for lines 0-10 with entries for the
first-line key 1 and the breakpointed line 10. -/
def lnums10 : List (Option Int) :=
  [none, some 1, none, none, none, none, none, none, none, none, some 10]

/-- A tracer state whose last-resolved cache holds `c0`, coherently with
its breakpoints index. -/
def sC2 : BdbTracer :=
  { attrs := { aEmpty with breakpoints := [("a.py", m0)], linenumbers := lnums10 }
    ignore_first_call_event := false
    lcfilename_cache := none
    module_bps := some m0
    code_bps := some cb0
    f_code := some c0 }

/-- A state whose bottom frame is `fr0` and whose step target is the
distinct frame `frG`, used for a RETURN event at the bottom frame. -/
def sRetBot : BdbTracer :=
  { s0 with attrs := { aEmpty with botframe := some fr0, stopframe := some frG } }

/-- A state whose bottom frame and step target are both `fr0`. -/
def sRetStop : BdbTracer :=
  { s0 with attrs := { aEmpty with botframe := some fr0, stopframe := some fr0 } }

/-- A state whose step target is `fr0` and whose bottom frame is the
distinct frame `frB`. -/
def sRet7 : BdbTracer :=
  { s0 with attrs := { aEmpty with botframe := some frB, stopframe := some fr0 } }

/-- A state with a non-empty skip-module list. -/
def sSkip : BdbTracer :=
  { s0 with attrs := { aEmpty with skip_modules := ["threading"] } }

/-- The state `s0` after a dispatched event first set `botframe`. -/
def sLine1 : BdbTracer :=
  { s0 with attrs := { aEmpty with botframe := some fr0 } }

/-- Trivial overridden methods for concrete runs: handlers succeed without
mutating anything and `get_traceobj` returns the tracer itself. -/
def caps0 : Caps :=
  { is_skipped_module := fun _ => some false
    user_line := fun a _ => (a, some ())
    bkpt_user_line := fun a _ _ => (a, some ())
    user_call := fun a _ _ => (a, some ())
    user_return := fun a _ _ => (a, some ())
    user_exception := fun a _ _ => (a, some ())
    get_traceobj := fun a => (a, some (some TraceObj.tracer))
    stop_tracing := fun a _ => (a, some ()) }

/-- Like `caps0` but `is_skipped_module` raises, exercising the failure
path of the dispatcher. -/
def capsRaise : Caps :=
  { caps0 with is_skipped_module := fun _ => none }

/-- The cache invariant the C comment at lines 30-36 relies on: the three
last-resolved cache fields are set together, so a non-NULL `f_code` implies
non-NULL `module_bps` and `code_bps`. -/
def cacheInv (s : BdbTracer) : Prop :=
  s.f_code ≠ none → (s.module_bps ≠ none ∧ s.code_bps ≠ none)

/-- Coherence of the last-resolved cache: whatever code object is cached,
the cached `module_bps`/`code_bps` are exactly what the two-level lookup
chain yields for it.  This is the documented obligation on the Python bdb
module (it "must make sure not to invalidate the module_bps and code_bps
references", C lines 30-36). -/
def cacheValid (s : BdbTracer) : Prop :=
  ∀ c, s.f_code = some c →
    ∃ m cb, lookup_code_bps s c = some (m, cb) ∧
      s.module_bps = some m ∧ s.code_bps = some cb

theorem lcUpd_attrs (s : BdbTracer) (f : String) : (lcUpd s f).attrs = s.attrs := by
  unfold lcUpd
  repeat' split
  all_goals rfl

theorem lcUpd_module_bps (s : BdbTracer) (f : String) :
    (lcUpd s f).module_bps = s.module_bps := by
  unfold lcUpd
  repeat' split
  all_goals rfl

theorem lcUpd_code_bps (s : BdbTracer) (f : String) :
    (lcUpd s f).code_bps = s.code_bps := by
  unfold lcUpd
  repeat' split
  all_goals rfl

theorem lcUpd_f_code (s : BdbTracer) (f : String) :
    (lcUpd s f).f_code = s.f_code := by
  unfold lcUpd
  repeat' split
  all_goals rfl

theorem fold_filename_lcUpd (s : BdbTracer) (f g : String) :
    fold_filename (lcUpd s f) g = fold_filename s g := by
  unfold lcUpd fold_filename
  rcases hc : s.lcfilename_cache with _ | cache
  · simp only [hc]
  rcases hf : List.lookup f cache with _ | v
  · simp only [hc, hf]
    by_cases hg : g = f
    · subst hg
      simp [List.lookup, hf]
    · have hb : (g == f) = false := by simp [hg]
      simp [List.lookup, hb]
  · simp only [hc, hf]

theorem lookup_code_bps_lcUpd (s : BdbTracer) (f : String) (c : Code) :
    lookup_code_bps (lcUpd s f) c = lookup_code_bps s c := by
  unfold lookup_code_bps
  simp only [fold_filename_lcUpd, lcUpd_attrs]

theorem lookup_code_bps_setcache (s : BdbTracer) (m : Option ModuleBps)
    (cb : Option CodeBps) (c2 : Option Code) (c : Code) :
    lookup_code_bps
        { s with module_bps := m, code_bps := cb, f_code := c2 } c
      = lookup_code_bps s c := rfl

/-- `bkpt_in_code` equals the pure lookup chain plus the cache updates. -/
theorem bkpt_in_code_spec (s : BdbTracer) (c : Code) :
    bkpt_in_code s c =
      match lookup_code_bps s c with
      | none => (none, lcUpd s c.co_filename)
      | some (m, cb) =>
        (some m,
         { lcUpd s c.co_filename with
             module_bps := some m
             code_bps := some cb
             f_code := some c }) := by
  unfold bkpt_in_code lookup_code_bps
  dsimp only
  simp only [lcUpd_attrs]
  rcases List.lookup (fold_filename s c.co_filename) s.attrs.breakpoints
    with _ | m
  · rfl
  · try dsimp only
    rcases s.attrs.linenumbers[c.co_firstlineno]? with _ | key
    · rfl
    · try dsimp only
      rcases key with _ | key
      · rfl
      · try dsimp only
        rcases List.lookup key m with _ | cb
        · rfl
        · rfl

theorem bkpt_in_code_inv (s : BdbTracer) (c : Code) (h : cacheInv s) :
    cacheInv (bkpt_in_code s c).2 := by
  rw [bkpt_in_code_spec]
  rcases hl : lookup_code_bps s c with _ | ⟨m, cb⟩
  · show cacheInv (lcUpd s c.co_filename)
    intro hne
    rw [lcUpd_f_code] at hne
    rw [lcUpd_module_bps, lcUpd_code_bps]
    exact h hne
  · intro _
    exact ⟨by simp, by simp⟩

theorem bkpt_in_code_valid (s : BdbTracer) (c : Code) (h : cacheValid s) :
    cacheValid (bkpt_in_code s c).2 := by
  rw [bkpt_in_code_spec]
  rcases hl : lookup_code_bps s c with _ | ⟨m, cb⟩
  · show cacheValid (lcUpd s c.co_filename)
    intro c2 hc2
    rw [lcUpd_f_code] at hc2
    obtain ⟨m2, cb2, hm, h1, h2⟩ := h c2 hc2
    refine ⟨m2, cb2, ?_, ?_, ?_⟩
    · rw [lookup_code_bps_lcUpd]; exact hm
    · rw [lcUpd_module_bps]; exact h1
    · rw [lcUpd_code_bps]; exact h2
  · intro c2 hc2
    have hcc : c = c2 := by
      have h9 : some c = some c2 := hc2
      injection h9
    subst hcc
    refine ⟨m, cb, ?_, rfl, rfl⟩
    rw [lookup_code_bps_setcache, lookup_code_bps_lcUpd]
    exact hl

/-- On success, `bkpt_in_code` leaves `code_bps` set. -/
theorem bkpt_in_code_code_bps (s : BdbTracer) (c : Code) (m : ModuleBps)
    (h : (bkpt_in_code s c).1 = some m) : (bkpt_in_code s c).2.code_bps ≠ none := by
  intro hnone
  rw [bkpt_in_code_spec] at h hnone
  rcases hl : lookup_code_bps s c with _ | ⟨m2, cb⟩
  · rw [hl] at h; simp at h
  · rw [hl] at hnone; simp at hnone

/-- `bkpt_at_line_tail` never changes the state and reports the query flag
it is given. -/
theorem bkpt_at_line_tail_st (s1 : BdbTracer) (m : ModuleBps) (q : Bool)
    (fr : Frame) (o : BkOut) (h : bkpt_at_line_tail s1 m q fr = some o) :
    o.st = s1 ∧ o.queried = q := by
  unfold bkpt_at_line_tail at h
  repeat' split at h
  all_goals first
    | exact Option.noConfusion h
    | (injection h with h2; subst h2; exact ⟨rfl, rfl⟩)

/-- When `code_bps` is set, `bkpt_at_line_tail` does not crash. -/
theorem bkpt_at_line_tail_total (s1 : BdbTracer) (m : ModuleBps) (q : Bool)
    (fr : Frame) (hcb : s1.code_bps ≠ none) :
    ∃ o, bkpt_at_line_tail s1 m q fr = some o := by
  unfold bkpt_at_line_tail
  rcases s1.attrs.linenumbers[fr.f_lineno]? with _ | k
  · exact ⟨_, rfl⟩
  rcases k with _ | key
  · exact ⟨_, rfl⟩
  rcases hc : s1.code_bps with _ | cb
  · exact absurd hc hcb
  dsimp only
  by_cases hk : key ∈ cb
  · rw [if_pos hk]; exact ⟨_, rfl⟩
  · rw [if_neg hk]; exact ⟨_, rfl⟩

/-- The state after `bkpt_at_line` is either untouched (cache hit) or the
state `bkpt_in_code` produced. -/
theorem bkpt_at_line_st (s : BdbTracer) (fr : Frame) (o : BkOut)
    (ho : bkpt_at_line s fr = some o) :
    o.st = s ∨ o.st = (bkpt_in_code s fr.f_code).2 := by
  unfold bkpt_at_line at ho
  dsimp only at ho
  by_cases hhit : s.f_code = some fr.f_code
  · rw [if_pos hhit] at ho
    cases hm : s.module_bps
    · rw [hm] at ho; exact Option.noConfusion ho
    · rw [hm] at ho
      exact Or.inl (bkpt_at_line_tail_st _ _ _ _ _ ho).1
  · rw [if_neg hhit] at ho
    cases hp : (bkpt_in_code s fr.f_code).1
    · rw [hp] at ho
      injection ho with ho2
      subst ho2
      exact Or.inr rfl
    · rw [hp] at ho
      exact Or.inr (bkpt_at_line_tail_st _ _ _ _ _ ho).1

theorem bkpt_at_line_inv (s : BdbTracer) (fr : Frame) (o : BkOut)
    (h : cacheInv s) (ho : bkpt_at_line s fr = some o) : cacheInv o.st := by
  rcases bkpt_at_line_st s fr o ho with h1 | h1
  · rw [h1]; exact h
  · rw [h1]; exact bkpt_in_code_inv s fr.f_code h

theorem bkpt_at_line_valid (s : BdbTracer) (fr : Frame) (o : BkOut)
    (h : cacheValid s) (ho : bkpt_at_line s fr = some o) : cacheValid o.st := by
  rcases bkpt_at_line_st s fr o ho with h1 | h1
  · rw [h1]; exact h
  · rw [h1]; exact bkpt_in_code_valid s fr.f_code h

/-- Under the cache invariant, `bkpt_at_line` never dereferences a NULL
cached pointer. -/
theorem bkpt_at_line_total (s : BdbTracer) (fr : Frame) (h : cacheInv s) :
    ∃ o, bkpt_at_line s fr = some o := by
  unfold bkpt_at_line
  dsimp only
  by_cases hhit : s.f_code = some fr.f_code
  · rw [if_pos hhit]
    have hmb : s.module_bps ≠ none ∧ s.code_bps ≠ none := by
      apply h; rw [hhit]; simp
    rcases hm : s.module_bps with _ | m
    · exact absurd hm hmb.1
    exact bkpt_at_line_tail_total s m false fr hmb.2
  · rw [if_neg hhit]
    rcases hp : (bkpt_in_code s fr.f_code).1 with _ | m
    · exact ⟨_, rfl⟩
    exact bkpt_at_line_tail_total _ m true fr
      (bkpt_in_code_code_bps s fr.f_code m hp)

/-- `stop_here` with a passing (or skipped) skip-module check reduces to
the pure frame/line decision of C lines 181-191. -/
theorem stop_here_no_skip (skipMod : Frame → Option Bool) (a : TracerAttrs)
    (fr : Frame) (hskip : a.skip_modules = [] ∨ skipMod fr = some false) :
    stop_here skipMod a fr =
      some (if a.stopframe = some fr ∨ a.stopframe = none then
              if a.stop_lineno = -1 then false
              else decide ((fr.f_lineno : Int) ≥ a.stop_lineno)
            else false) := by
  unfold stop_here
  dsimp only
  have hpush : (if a.stopframe = some fr ∨ a.stopframe = none then
      if a.stop_lineno = -1 then some false
      else some (decide ((fr.f_lineno : Int) ≥ a.stop_lineno))
    else some false) =
      some (if a.stopframe = some fr ∨ a.stopframe = none then
              if a.stop_lineno = -1 then false
              else decide ((fr.f_lineno : Int) ≥ a.stop_lineno)
            else false) := by
    split_ifs <;> rfl
  rw [hpush]
  rcases hskip with hs | hs
  · rw [hs]; simp
  · by_cases hne : a.skip_modules ≠ []
    · rw [if_pos hne, hs]
    · rw [if_neg hne]

/-- Result of `bkpt_at_line_tail` depends only on `linenumbers`,
`code_bps` and the module set, not on the rest of the state or the query
flag. -/
theorem bkpt_at_line_tail_res (s1 s2 : BdbTracer) (m : ModuleBps)
    (q1 q2 : Bool) (fr : Frame)
    (hln : s1.attrs.linenumbers = s2.attrs.linenumbers)
    (hcb : s1.code_bps = s2.code_bps) (hne : s1.code_bps ≠ none) :
    ∃ o1 o2, bkpt_at_line_tail s1 m q1 fr = some o1 ∧
      bkpt_at_line_tail s2 m q2 fr = some o2 ∧ o1.res = o2.res := by
  unfold bkpt_at_line_tail
  rw [hln, hcb]
  rcases s2.attrs.linenumbers[fr.f_lineno]? with _ | k
  · exact ⟨_, _, rfl, rfl, rfl⟩
  rcases k with _ | key
  · exact ⟨_, _, rfl, rfl, rfl⟩
  rcases hc : s2.code_bps with _ | cb
  · rw [hcb] at hne; exact absurd hc hne
  dsimp only
  by_cases hk : key ∈ cb
  · simp only [if_pos hk]; exact ⟨_, _, rfl, rfl, rfl⟩
  · simp only [if_neg hk]; exact ⟨_, _, rfl, rfl, rfl⟩

/-- On a cache hit in a coherent state, `bkpt_at_line` does not query the
breakpoints index, leaves the state untouched, and returns the same
breakpoint set as the uncached path would. -/
theorem bkpt_at_line_hit_eq_uncached (s : BdbTracer) (fr : Frame)
    (h : cacheValid s) (hhit : s.f_code = some fr.f_code) :
    ∃ o u, bkpt_at_line s fr = some o ∧ bkpt_at_line_uncached s fr = some u ∧
      o.queried = false ∧ o.st = s ∧ o.res = u.res := by
  obtain ⟨m, cb, hl, hm, hc2⟩ := h fr.f_code hhit
  have hbic := bkpt_in_code_spec s fr.f_code
  rw [hl] at hbic
  have hp1 : (bkpt_in_code s fr.f_code).1 = some m := by rw [hbic]
  have hln : s.attrs.linenumbers
      = (bkpt_in_code s fr.f_code).2.attrs.linenumbers := by
    rw [hbic]
    show s.attrs.linenumbers = (lcUpd s fr.f_code.co_filename).attrs.linenumbers
    rw [lcUpd_attrs]
  have hcb : s.code_bps = (bkpt_in_code s fr.f_code).2.code_bps := by
    rw [hbic]; exact hc2
  have hne : s.code_bps ≠ none := by rw [hc2]; simp
  obtain ⟨o1, o2, t1, t2, tres⟩ :=
    bkpt_at_line_tail_res s (bkpt_in_code s fr.f_code).2 m false true fr
      hln hcb hne
  refine ⟨o1, o2, ?_, ?_, (bkpt_at_line_tail_st _ _ _ _ _ t1).2,
    (bkpt_at_line_tail_st _ _ _ _ _ t1).1, tres⟩
  · unfold bkpt_at_line
    rw [if_pos hhit, hm]
    exact t1
  · unfold bkpt_at_line_uncached
    dsimp only
    rw [hp1]
    exact t2

/-- Claim C1, as stated, is false on the code: with `skip_modules` empty,
`stop_frame = None` and `stop_lineno = -1`, `stop_here` returns false
(C lines 185-187 return 0 when the decoded line number is -1), not
true. -/
theorem C1_counterexample :
    stop_here (fun _ => some false) { aEmpty with stop_lineno := -1 } fr0
        = some false ∧
      stop_here (fun _ => some false) { aEmpty with stop_lineno := -1 } fr0
        ≠ some true := by
  refine ⟨rfl, ?_⟩
  decide

/-- Claim C1 (amended): for every frame, when `skip_modules` is empty (or
the frame matches no skip pattern), `stop_frame` is `None` and
`stop_lineno` holds the sentinel -1, `should_stop(frame)` returns false
(-1 is the never-stop sentinel). -/
theorem C1_amended_thm (skipMod : Frame → Option Bool) (a : TracerAttrs)
    (fr : Frame) (hskip : a.skip_modules = [] ∨ skipMod fr = some false)
    (hsf : a.stopframe = none) (hln : a.stop_lineno = -1) :
    stop_here skipMod a fr = some false := by
  rw [stop_here_no_skip skipMod a fr hskip, hsf, hln]
  simp

/-- Witness for C1_amended_thm at a concrete input. -/
theorem C1_witness :
    stop_here (fun _ => some false)
        { aEmpty with stopframe := none, stop_lineno := -1 } frG = some false :=
  C1_amended_thm (fun _ => some false)
    { aEmpty with stopframe := none, stop_lineno := -1 } frG
    (Or.inl rfl) rfl rfl

/-- Claim C2: starting from a coherent state, after a first breakpoint
resolution, a second resolution for a frame whose code object equals the
cached `f_code` does not query the breakpoints index (`queried = false`,
state untouched) and returns the same breakpoint set as the uncached
resolution path. -/
theorem C2_thm (s : BdbTracer) (fr1 fr2 : Frame) (hv : cacheValid s)
    (out1 : BkOut) (h1 : bkpt_at_line s fr1 = some out1)
    (hcode : fr2.f_code = fr1.f_code)
    (hhit : out1.st.f_code = some fr2.f_code) :
    ∃ out2 u, bkpt_at_line out1.st fr2 = some out2 ∧
      bkpt_at_line_uncached out1.st fr2 = some u ∧
      out2.queried = false ∧ out2.st = out1.st ∧ out2.res = u.res := by
  have hv1 : cacheValid out1.st := bkpt_at_line_valid s fr1 out1 hv h1
  exact bkpt_at_line_hit_eq_uncached out1.st fr2 hv1 hhit

/-- Witness for C2_thm: two consecutive resolutions in `sC2` for frames of
the same code object `c0`. -/
theorem C2_witness :
    ∃ out2 u, bkpt_at_line sC2 frG = some out2 ∧
      bkpt_at_line_uncached sC2 frG = some u ∧
      out2.queried = false ∧ out2.st = sC2 ∧ out2.res = u.res := by
  have hv : cacheValid sC2 := by
    intro c hc
    have h9 : some c0 = some c := hc
    cases h9
    exact ⟨m0, cb0, rfl, rfl, rfl⟩
  have h1 : bkpt_at_line sC2 frF = some ⟨some m0, sC2, false⟩ := by decide
  have hmain := C2_thm sC2 frF frG hv ⟨some m0, sC2, false⟩ h1 rfl rfl
  exact hmain

/-- Claim C3, as stated, is false on the code: `reset` with the
`ignore_first_call_event` argument omitted stores true, not false
(C line 513, `1 ? ignore != Py_False : 0` with `ignore == NULL`). -/
theorem C3_counterexample :
    (reset s0 none none).ignore_first_call_event = true ∧
      (reset s0 none none).ignore_first_call_event ≠ false := by
  exact ⟨rfl, by decide⟩

/-- Claim C3 (amended): after any call to `reset`, `quitting` is false,
`topframe`, `topframe_locals` and `stopframe` are empty, `stop_lineno` is
0, and `ignore_first_call_event` is stored as given, defaulting to true
when the argument is omitted. -/
theorem C3_amended_thm (s : BdbTracer) (ignore : Option Bool)
    (botframe : Option (Option Frame)) :
    (reset s ignore botframe).attrs.quitting = false ∧
    (reset s ignore botframe).attrs.topframe = none ∧
    (reset s ignore botframe).attrs.topframe_locals = none ∧
    (reset s ignore botframe).attrs.stopframe = none ∧
    (reset s ignore botframe).attrs.stop_lineno = 0 ∧
    (reset s ignore botframe).ignore_first_call_event = ignore.getD true := by
  refine ⟨rfl, rfl, rfl, rfl, rfl, ?_⟩
  rcases ignore with _ | b
  · rfl
  · cases b <;> rfl

/-- Claim C5: for every frame matching a skip pattern while `skip_modules`
is non-empty, `should_stop` returns false for all values of `stop_frame`
and `stop_lineno` (the attributes `a` are universally quantified). -/
theorem C5_thm (skipMod : Frame → Option Bool) (a : TracerAttrs) (fr : Frame)
    (hne : a.skip_modules ≠ []) (hskip : skipMod fr = some true) :
    stop_here skipMod a fr = some false := by
  unfold stop_here
  dsimp only
  rw [if_pos hne, hskip]

/-- Witness for C5_thm at a concrete input. -/
theorem C5_witness :
    stop_here (fun _ => some true)
        { aEmpty with skip_modules := ["threading"] } fr0 = some false :=
  C5_thm (fun _ => some true) { aEmpty with skip_modules := ["threading"] }
    fr0 (by decide) rfl

/-- Claim C6: with `stop_frame = F` and `stop_lineno = N` where N is
neither sentinel (not 0, not -1) and no skip pattern matches,
`should_stop(F)` is true iff the current line of F is at least N, and
`should_stop(G)` is false for every frame G distinct from F. -/
theorem C6_thm (skipMod : Frame → Option Bool) (a : TracerAttrs)
    (F G : Frame) (N : Int) (hsf : a.stopframe = some F)
    (hN : a.stop_lineno = N) (hN0 : N ≠ 0) (hN1 : N ≠ -1)
    (hskipF : a.skip_modules = [] ∨ skipMod F = some false)
    (hskipG : a.skip_modules = [] ∨ skipMod G = some false)
    (hGF : G ≠ F) :
    stop_here skipMod a F = some (decide ((F.f_lineno : Int) ≥ N)) ∧
    stop_here skipMod a G = some false := by
  constructor
  · rw [stop_here_no_skip skipMod a F hskipF, hsf, hN]
    rw [if_pos (Or.inl rfl), if_neg hN1]
  · rw [stop_here_no_skip skipMod a G hskipG, hsf]
    rw [if_neg ?hcond]
    case hcond =>
      rintro (h9 | h9)
      · have h10 : F = G := by injection h9
        exact hGF h10.symm
      · exact Option.noConfusion h9

/-- Witness for C6_thm at concrete inputs: threshold 7, `frF` at line 10,
`frG` at line 5. -/
theorem C6_witness :
    stop_here (fun _ => some false)
        { aEmpty with stopframe := some frF, stop_lineno := 7 } frF
        = some (decide ((frF.f_lineno : Int) ≥ 7)) ∧
      stop_here (fun _ => some false)
        { aEmpty with stopframe := some frF, stop_lineno := 7 } frG
        = some false :=
  C6_thm (fun _ => some false)
    { aEmpty with stopframe := some frF, stop_lineno := 7 } frF frG 7
    rfl rfl (by decide) (by decide) (Or.inl rfl) (Or.inl rfl) (by decide)

/-- `user_method` only changes the Python-visible attributes of the
tracer state. -/
theorem user_method_shape (caps : Caps)
    (handler : TracerAttrs → TracerAttrs × Option Unit) (s : BdbTracer)
    (fr : Frame) :
    ∃ a r, user_method caps handler s fr = ({ s with attrs := a }, r) := by
  unfold user_method
  dsimp only
  rcases handler _ with ⟨a3, _ | u⟩
  · exact ⟨a3, none, rfl⟩
  · dsimp only
    rcases caps.get_traceobj _ with ⟨a5, _ | tobj⟩
    · exact ⟨a5, none, rfl⟩
    · exact ⟨a5, some tobj, rfl⟩

/-- `user_method` preserves the cache invariant: the internal cache
fields are not Python-visible. -/
theorem user_method_inv (caps : Caps)
    (handler : TracerAttrs → TracerAttrs × Option Unit) (s : BdbTracer)
    (fr : Frame) (h : cacheInv s) :
    cacheInv (user_method caps handler s fr).1 := by
  obtain ⟨a, r, hu⟩ := user_method_shape caps handler s fr
  rw [hu]
  exact h

/-- `ret_tail` preserves the cache invariant. -/
theorem ret_tail_inv (caps : Caps) (s : BdbTracer) (fr : Frame)
    (ft : Option TraceObj) (bk : Option (Option TraceObj)) (h : cacheInv s) :
    cacheInv (ret_tail caps s fr ft bk).st := by
  unfold ret_tail
  by_cases hb : s.attrs.botframe = some fr
  · rw [if_pos hb]
    rcases caps.stop_tracing s.attrs fr with ⟨a2, _ | u⟩
    · exact h
    · exact h
  · rw [if_neg hb]
    exact h

/-- `bkpt_at_line` under the cache invariant: total and invariant
preserving. -/
theorem bkpt_at_line_total_inv (s : BdbTracer) (fr : Frame) (h : cacheInv s) :
    ∃ o, bkpt_at_line s fr = some o ∧ cacheInv o.st := by
  obtain ⟨o, ho⟩ := bkpt_at_line_total s fr h
  exact ⟨o, ho, bkpt_at_line_inv s fr o h ho⟩

/-- Every successful `tracer` call ends at the early return, the `fail`
label, or the `fin` label, with the frame slots it was given. -/
theorem tracer_shape (caps : Caps) (s : BdbTracer) (fr : Frame)
    (ft : Option TraceObj) (bk : Option (Option TraceObj)) (ev : Event)
    (arg : Arg) (out : TraceOut)
    (h : tracer caps s fr ft bk ev arg = some out) :
    out = earlyOut s ft bk ∨ (∃ s2 b2, out = failOut s2 b2) ∨
      ∃ s2 b2 r, out = finOut s2 ft b2 r := by
  unfold tracer ret_tail at h
  dsimp only at h
  repeat' split at h
  all_goals first
    | exact Option.noConfusion h
    | (injection h with h2; subst h2;
       first
         | exact Or.inl rfl
         | exact Or.inr (Or.inl ⟨_, _, rfl⟩)
         | exact Or.inr (Or.inr ⟨_, _, _, rfl⟩))

/-- Under the cache invariant, `tracer` never crashes and preserves the
invariant through every branch (handlers only see the Python-visible
attributes). -/
theorem tracer_total_inv (caps : Caps) (s : BdbTracer) (fr : Frame)
    (ft : Option TraceObj) (bk : Option (Option TraceObj)) (ev : Event)
    (arg : Arg) (h : cacheInv s) :
    ∃ out, tracer caps s fr ft bk ev arg = some out ∧ cacheInv out.st := by
  unfold tracer
  by_cases hearly : ev ≠ Event.call ∧ ft = none
  · rw [if_pos hearly]
    exact ⟨_, rfl, h⟩
  rw [if_neg hearly]
  cases ev
  · -- CALL
    dsimp only
    by_cases hig : s.ignore_first_call_event = true
    · rw [if_pos hig]
      exact ⟨_, rfl, h⟩
    rw [if_neg hig]
    by_cases hsk : fr.f_code ∈ s.attrs.skip_calls
    · rw [if_pos hsk]
      exact ⟨_, rfl, h⟩
    rw [if_neg hsk]
    rcases stop_here caps.is_skipped_module s.attrs fr with _ | rc
    · exact ⟨_, rfl, h⟩
    dsimp only
    have hpinv : cacheInv (bkpt_in_code s fr.f_code).2 :=
      bkpt_in_code_inv s fr.f_code h
    cases rc
    · -- rc = false
      by_cases hn : (bkpt_in_code s fr.f_code).1 = none
      · rw [if_pos ⟨by decide, hn⟩]
        exact ⟨_, rfl, hpinv⟩
      · rw [if_neg (fun hcc => hn hcc.2), if_neg (by decide)]
        exact ⟨_, rfl, hpinv⟩
    · -- rc = true
      rw [if_neg (fun hcc => hcc.1 rfl), if_pos rfl]
      rcases hu : user_method caps (fun a => caps.user_call a fr arg)
        (bkpt_in_code s fr.f_code).2 fr with ⟨s1, r⟩
      have hs1 : cacheInv s1 := by
        have h9 := user_method_inv caps (fun a => caps.user_call a fr arg)
          (bkpt_in_code s fr.f_code).2 fr hpinv
        rw [hu] at h9
        exact h9
      rcases r with _ | tobj
      · exact ⟨_, rfl, hs1⟩
      · exact ⟨_, rfl, hs1⟩
  · -- LINE
    dsimp only
    rcases stop_here caps.is_skipped_module s.attrs fr with _ | rc
    · exact ⟨_, rfl, h⟩
    cases rc
    · -- rc = false
      dsimp only
      obtain ⟨o, ho, hoinv⟩ := bkpt_at_line_total_inv s fr h
      rw [ho]
      dsimp only
      rcases o.res with _ | m
      · exact ⟨_, rfl, hoinv⟩
      · dsimp only
        rcases hu : user_method caps (fun a => caps.bkpt_user_line a fr m) o.st fr
          with ⟨s1, r⟩
        have hs1 : cacheInv s1 := by
          have h9 := user_method_inv caps (fun a => caps.bkpt_user_line a fr m)
            o.st fr hoinv
          rw [hu] at h9
          exact h9
        rcases r with _ | tobj
        · exact ⟨_, rfl, hs1⟩
        · exact ⟨_, rfl, hs1⟩
    · -- rc = true
      dsimp only
      rcases hu : user_method caps (fun a => caps.user_line a fr) s fr
        with ⟨s1, r⟩
      have hs1 : cacheInv s1 := by
        have h9 := user_method_inv caps (fun a => caps.user_line a fr) s fr h
        rw [hu] at h9
        exact h9
      rcases r with _ | tobj
      · exact ⟨_, rfl, hs1⟩
      · exact ⟨_, rfl, hs1⟩
  · -- RETURN
    dsimp only
    rcases stop_here caps.is_skipped_module s.attrs fr with _ | rc
    · exact ⟨_, rfl, h⟩
    dsimp only
    by_cases hcond : (rc = true ∨ s.attrs.stopframe = some fr)
    · rw [if_pos hcond]
      rcases hu : user_method caps (fun a => caps.user_return a fr arg) s fr
        with ⟨s1, r⟩
      have hs1 : cacheInv s1 := by
        have h9 := user_method_inv caps (fun a => caps.user_return a fr arg)
          s fr h
        rw [hu] at h9
        exact h9
      rcases r with _ | tobj
      · exact ⟨_, rfl, hs1⟩
      rcases tobj with _ | t
      · exact ⟨_, rfl, hs1⟩
      · dsimp only
        by_cases hq : (s1.attrs.botframe ≠ some fr ∧
            ((s1.attrs.stopframe = none ∧ s1.attrs.stop_lineno = 0) ∨
             s1.attrs.stopframe = some fr))
        · rw [if_pos hq]
          exact ⟨_, rfl, ret_tail_inv caps _ fr ft _ hs1⟩
        · rw [if_neg hq]
          exact ⟨_, rfl, ret_tail_inv caps _ fr ft _ hs1⟩
    · rw [if_neg hcond]
      exact ⟨_, rfl, ret_tail_inv caps s fr ft bk h⟩
  · -- EXCEPTION
    dsimp only
    rcases stop_here caps.is_skipped_module s.attrs fr with _ | rc
    · exact ⟨_, rfl, h⟩
    cases rc
    · -- rc = false
      exact ⟨_, rfl, h⟩
    · -- rc = true
      dsimp only
      rcases hu : user_method caps (fun a => caps.user_exception a fr arg) s fr
        with ⟨s1, r⟩
      have hs1 : cacheInv s1 := by
        have h9 := user_method_inv caps (fun a => caps.user_exception a fr arg)
          s fr h
        rw [hu] at h9
        exact h9
      rcases r with _ | tobj
      · exact ⟨_, rfl, hs1⟩
      · exact ⟨_, rfl, hs1⟩

/-- Claim C4, as stated, is false on the code: at the `fin` label a
`Py_None` result leaves the frame's hook unchanged (C line 490 only drops
the reference), it does not clear it.  Concretely, a RETURN event at the
bottom frame ends with result `Py_None` while the hook stays `obj 7`. -/
theorem C4_counterexample :
    (tracer caps0 sRetBot fr0 (some (TraceObj.obj 7)) none Event.ret none).map
        (fun o => (o.result, o.frameTrace))
      = some (some none, some (TraceObj.obj 7)) := by decide

/-- Claim C4 (amended): for every dispatched event reaching the `fin`
label with result object `r`, a non-`Py_None` result replaces the frame's
hook and a `Py_None` result leaves the hook unchanged. -/
theorem C4_amended_thm (caps : Caps) (s : BdbTracer) (fr : Frame)
    (ft : Option TraceObj) (bk : Option (Option TraceObj)) (ev : Event)
    (arg : Arg) (out : TraceOut) (r : Option TraceObj)
    (h : tracer caps s fr ft bk ev arg = some out)
    (hr : out.result = some r) :
    out.ok = true ∧ out.frameTrace = apply_result ft r := by
  rcases tracer_shape caps s fr ft bk ev arg out h with h1 | ⟨s2, b2, h1⟩ |
    ⟨s2, b2, r2, h1⟩
  · subst h1
    exact absurd hr (by simp [earlyOut])
  · subst h1
    exact absurd hr (by simp [failOut])
  · subst h1
    have h9 : some r2 = some r := hr
    injection h9 with h10
    rw [← h10]
    exact ⟨rfl, rfl⟩

/-- Witness for C4_amended_thm: a LINE event on `s0` stops, the handler
returns the tracer object, and the tracer object replaces the hook. -/
theorem C4_witness :
    ∃ out, tracer caps0 s0 fr0 (some TraceObj.tracer) none Event.line none
        = some out ∧ out.ok = true ∧ out.frameTrace = some TraceObj.tracer := by
  have h : tracer caps0 s0 fr0 (some TraceObj.tracer) none Event.line none
      = some (finOut sLine1 (some TraceObj.tracer) none
              (some TraceObj.tracer)) := by decide
  have h2 := C4_amended_thm caps0 s0 fr0 (some TraceObj.tracer) none
    Event.line none _ (some TraceObj.tracer) h rfl
  exact ⟨_, h, h2.1, h2.2⟩

/-- Claim C7, as stated, is false on the code: when the returning frame is
also the bottom frame, the propagation block is skipped (C line 431
requires `frame != botframe`), so `stop_frame` is not cleared and the
caller's hook is not installed even though `should_stop` was true and the
handler did not stop completely. -/
theorem C7_counterexample :
    stop_here caps0.is_skipped_module sRetStop.attrs fr0 = some true ∧
    user_method caps0 (fun a => caps0.user_return a fr0 none) sRetStop fr0
      = (sRetStop, some (some TraceObj.tracer)) ∧
    (tracer caps0 sRetStop fr0 (some TraceObj.tracer) (some none)
        Event.ret none).map
        (fun o => (o.st.attrs.stopframe, o.st.attrs.stop_lineno, o.backTrace))
      = some (some fr0, 0, some none) := by decide

/-- Claim C7 (amended): on a dispatched RETURN event for `fr` with
`stop_frame = fr` and `should_stop` true, when the handler run succeeds
with a non-`Py_None` trace object and, as re-read after the handler call,
`stop_frame` is still `fr` and the bottom frame is not `fr`, then
`stop_frame` becomes unconstrained, `stop_lineno` becomes 0, and the
caller frame receives the tracer as hook exactly when it exists and had
no hook (an existing hook is never overridden). -/
theorem C7_amended_thm (caps : Caps) (s : BdbTracer) (fr : Frame)
    (fTrace : Option TraceObj) (back : Option (Option TraceObj)) (arg : Arg)
    (s1 : BdbTracer) (t : TraceObj)
    (hft : fTrace ≠ none)
    (hsf : s.attrs.stopframe = some fr)
    (hsh : stop_here caps.is_skipped_module s.attrs fr = some true)
    (hum : user_method caps (fun a => caps.user_return a fr arg) s fr
             = (s1, some (some t)))
    (hsf1 : s1.attrs.stopframe = some fr)
    (hbot1 : s1.attrs.botframe ≠ some fr) :
    ∃ out, tracer caps s fr fTrace back Event.ret arg = some out ∧
      out.st.attrs.stopframe = none ∧ out.st.attrs.stop_lineno = 0 ∧
      out.backTrace = install_back back := by
  unfold tracer
  rw [if_neg (by rintro ⟨h1, h2⟩; exact hft h2)]
  dsimp only
  rw [hsh]
  dsimp only
  rw [if_pos (Or.inl rfl), hum]
  dsimp only
  rw [if_pos ⟨hbot1, Or.inr hsf1⟩]
  unfold ret_tail
  rw [if_neg hbot1]
  exact ⟨_, rfl, rfl, rfl, rfl⟩

/-- Witness for C7_amended_thm: a RETURN event at `fr0` in `sRet7`, whose
bottom frame is the distinct frame `frB` and whose caller has no hook. -/
theorem C7_witness :
    ∃ out, tracer caps0 sRet7 fr0 (some TraceObj.tracer) (some none)
        Event.ret none = some out ∧
      out.st.attrs.stopframe = none ∧ out.st.attrs.stop_lineno = 0 ∧
      out.backTrace = install_back (some none) :=
  C7_amended_thm caps0 sRet7 fr0 (some TraceObj.tracer) (some none) none
    sRet7 TraceObj.tracer (by decide) rfl (by decide) (by decide) rfl
    (by decide)

/-- Claim C8: every failing dispatch attaches a traceback diagnostic to
the current frame, uninstalls the global trace hook, clears the frame's
local hook, and returns the error (-1) to the host. -/
theorem C8_thm (caps : Caps) (s : BdbTracer) (fr : Frame)
    (ft : Option TraceObj) (bk : Option (Option TraceObj)) (ev : Event)
    (arg : Arg) (out : TraceOut)
    (h : tracer caps s fr ft bk ev arg = some out) (hfail : out.ok = false) :
    out.tbHere = true ∧ out.globalTrace = false ∧ out.frameTrace = none := by
  rcases tracer_shape caps s fr ft bk ev arg out h with h1 | ⟨s2, b2, h1⟩ |
    ⟨s2, b2, r, h1⟩
  · subst h1
    exact absurd hfail (by simp [earlyOut])
  · subst h1
    exact ⟨rfl, rfl, rfl⟩
  · subst h1
    exact absurd hfail (by simp [finOut])

/-- Witness for C8_thm: `is_skipped_module` raises on a LINE event with a
non-empty skip list. -/
theorem C8_witness :
    ∃ out, tracer capsRaise sSkip fr0 (some TraceObj.tracer) none
        Event.line none = some out ∧ out.ok = false ∧
      out.tbHere = true ∧ out.globalTrace = false ∧ out.frameTrace = none := by
  have h : tracer capsRaise sSkip fr0 (some TraceObj.tracer) none
      Event.line none = some (failOut sSkip none) := by decide
  have h2 := C8_thm capsRaise sSkip fr0 (some TraceObj.tracer) none
    Event.line none _ h rfl
  exact ⟨_, h, rfl, h2⟩

/-- Claim C9: a LINE, RETURN or EXCEPTION event on a frame with no local
trace hook returns success immediately, with no state change and no
capability invoked (the output does not depend on the capabilities or the
event argument at all). -/
theorem C9_thm (caps caps2 : Caps) (s : BdbTracer) (fr : Frame)
    (back : Option (Option TraceObj)) (ev : Event) (arg arg2 : Arg)
    (hev : ev ≠ Event.call) :
    tracer caps s fr none back ev arg =
      some { ok := true, st := s, frameTrace := none, backTrace := back,
             result := none, globalTrace := true, tbHere := false } ∧
    tracer caps s fr none back ev arg = tracer caps2 s fr none back ev arg2 := by
  have h1 : ∀ (c : Caps) (a : Arg), tracer c s fr none back ev a =
      some { ok := true, st := s, frameTrace := none, backTrace := back,
             result := none, globalTrace := true, tbHere := false } := by
    intro c a
    unfold tracer
    rw [if_pos ⟨hev, rfl⟩]
    rfl
  exact ⟨h1 caps arg, (h1 caps arg).trans (h1 caps2 arg2).symm⟩

/-- Witness for C9_thm at a concrete hook-less LINE event. -/
theorem C9_witness :
    tracer caps0 sC2 frF none none Event.line none =
      some { ok := true, st := sC2, frameTrace := none, backTrace := none,
             result := none, globalTrace := true, tbHere := false } :=
  (C9_thm caps0 capsRaise sC2 frF none Event.line none none (by decide)).1

/-- Claim C10: the three last-resolved cache fields are only ever set
together, so every operation preserves the invariant that a cached
`f_code` comes with non-NULL `module_bps` and `code_bps`, the invariant
holds after `init`, and under it neither `bkpt_at_line` nor `tracer` ever
reads a NULL cached set (they never crash). -/
theorem C10_thm :
    (∀ s c, cacheInv s → cacheInv (bkpt_in_code s c).2) ∧
    (∀ s fr, cacheInv s → ∃ o, bkpt_at_line s fr = some o ∧ cacheInv o.st) ∧
    (∀ s ig bf, cacheInv s → cacheInv (reset s ig bf)) ∧
    (∀ lc sm sc, cacheInv (init lc sm sc)) ∧
    (∀ caps s fr ft bk ev arg, cacheInv s →
      ∃ out, tracer caps s fr ft bk ev arg = some out ∧ cacheInv out.st) := by
  refine ⟨bkpt_in_code_inv, bkpt_at_line_total_inv, ?_, ?_, tracer_total_inv⟩
  · intro s ig bf hs
    exact hs
  · intro lc sm sc h9
    exact absurd rfl h9

/-- Witness for C10_thm: the invariant parts applied at concrete states,
one with an empty cache and one with a populated coherent cache. -/
theorem C10_witness :
    (∃ o, bkpt_at_line s0 frF = some o ∧ cacheInv o.st) ∧
    (∃ out, tracer caps0 sC2 frF (some TraceObj.tracer) none Event.line none
        = some out ∧ cacheInv out.st) := by
  have hinv : cacheInv s0 := fun h9 => absurd rfl h9
  have hinv2 : cacheInv sC2 := fun _ => ⟨by decide, by decide⟩
  exact ⟨C10_thm.2.1 s0 frF hinv,
    C10_thm.2.2.2.2 caps0 sC2 frF (some TraceObj.tracer) none Event.line none
      hinv2⟩

end Bdb
